import Mathlib

/-!
# Verification of the firmware-update control path
(`board/labx/revolver/firmware-update.c`)

Shallow embedding of the firmware-update session state machine, the
single-slot event latch, the request dispatcher loop and the boot
decision sequencer.  All C `uint32_t` arithmetic is modelled on `Nat`
with an explicit `% 2^32` where the source can overflow; pointers are
modelled as unbounded addresses (C pointer arithmetic within the staging
object never wraps).  `printf` console output and the raw mailbox/ICAP
hardware I/O are outside the state; external collaborators
(`image_check_type`, `image_check_dcrc`, `parse_string_outer`) are
parameters gathered in a `Collab` record.  Ghost fields (`execCount`,
`completeCount`, `shellCalls`, `asyncSignals`) instrument the state to
count occurrences of events; no source behaviour reads them.
-/

/-- Error codes from the (external) `AvbDefs` header; only the codes used
by this translation unit are modelled. -/
inductive ErrorCode where
  | e_EC_SUCCESS
  | e_EC_UPDATE_ALREADY_IN_PROGRESS
  | e_EC_UPDATE_NOT_IN_PROGRESS
  | e_EC_NOT_EXECUTED
  | e_EC_INVALID_SERVICE_CODE
  deriving DecidableEq, Repr

open ErrorCode

/-- The terminal execution-state enum from the (external)
`FirmwareUpdate.h` header. -/
inductive ExecState where
  | UPDATE_SUCCESS
  | UPDATE_CORRUPT_IMAGE
  | UPDATE_NOT_EXECUTED
  deriving DecidableEq, Repr

/-- `const uint32_t NULL_EVENT = 0x00000000;` -/
def NULL_EVENT : Nat := 0x00000000

/-- `const uint32_t FIRMWARE_UPDATE_EVENT = 0x846C034D;` -/
def FIRMWARE_UPDATE_EVENT : Nat := 0x846C034D

/-- `#define GENERAL5_MAGIC (0x0ABCD)` -/
def GENERAL5_MAGIC : Nat := 0x0ABCD

/-- `#define FWUPDATE_BUFFER XPAR_DDR2_CONTROL_MPMC_BASEADDR`.  The exact
board address comes from the (external) `xparameters.h`; no claim depends
on its value, only on offsets from it. -/
def FWUPDATE_BUFFER : Nat := 0x90000000

/-- The `FirmwareUpdateCtxt_t` struct of the source. -/
structure FirmwareUpdateCtxt where
  bUpdateInProgress : Bool
  length : Nat
  bytesReceived : Nat
  fwImageBase : Nat
  fwImagePtr : Nat
  cmd : String
  deriving Repr

/-- The global mutable state of the translation unit: the session context,
the five global flags, the execution-state cell `*state`, the staging
memory, and the environment-variable store reached through `setenv`.
The four `Nat` counters at the end are ghost instrumentation. -/
structure SysState where
  ctxt : FirmwareUpdateCtxt
  bootDelay : Bool
  firmwareUpdate : Bool
  executeUpdate : Bool
  queueEnabled : Bool
  eventValid : Bool
  execState : ExecState
  mem : Nat → UInt8
  envVars : List (String × String)
  execCount : Nat
  completeCount : Nat
  shellCalls : Nat
  asyncSignals : Nat

/-- Boot-time state: all C globals are zero-initialized (`FALSE` flags,
zeroed session context).  The contents of the `*state` cell before the
first execution are never observed by any claim; `UPDATE_SUCCESS` is an
arbitrary placeholder for them. -/
def initState : SysState where
  ctxt := { bUpdateInProgress := false, length := 0, bytesReceived := 0,
            fwImageBase := 0, fwImagePtr := 0, cmd := "" }
  bootDelay := false
  firmwareUpdate := false
  executeUpdate := false
  queueEnabled := false
  eventValid := false
  execState := ExecState.UPDATE_SUCCESS
  mem := fun _ => 0
  envVars := []
  execCount := 0
  completeCount := 0
  shellCalls := 0
  asyncSignals := 0

/-- External collaborators, per the spec's interface boundary:
image-type recognition and data-CRC verification (both read the staged
memory from a base address) and the HUSH shell (`parse_string_outer`),
which reports an exit code. -/
structure Collab where
  image_check_type : (Nat → UInt8) → Nat → Bool
  image_check_dcrc : (Nat → UInt8) → Nat → Bool
  parse_string_outer : String → Int

/-- `setenv(name, value)`: the variable-store collaborator; the most
recent binding of a name wins. -/
def setenvS (name value : String) (s : SysState) : SysState :=
  { s with envVars := (name, value) :: s.envVars }

/-- Look up a variable in the store (most recent binding first). -/
def getenvS (s : SysState) (name : String) : Option String :=
  (s.envVars.find? (fun p => p.fst == name)).map Prod.snd

/-- `memcpy(dst, src, src.length)` over the byte-addressed staging memory. -/
def memcpyS (m : Nat → UInt8) (dst : Nat) (src : List UInt8) : Nat → UInt8 :=
  fun a => if dst ≤ a ∧ a - dst < src.length then src.getD (a - dst) 0 else m a

/-- `startFirmwareUpdate(cmd, length)` (source lines 72–95): report
`e_EC_UPDATE_ALREADY_IN_PROGRESS` when a session was active, then
unconditionally re-initialize the whole session context. -/
def startFirmwareUpdate (cmd : String) (length : Nat) (s : SysState) :
    ErrorCode × SysState :=
  let returnValue := if s.ctxt.bUpdateInProgress then
    e_EC_UPDATE_ALREADY_IN_PROGRESS else e_EC_SUCCESS
  (returnValue,
   { s with ctxt := { bUpdateInProgress := true, length := length,
                      cmd := cmd, bytesReceived := 0,
                      fwImageBase := FWUPDATE_BUFFER,
                      fwImagePtr := FWUPDATE_BUFFER } })

/-- `sendDataPacket(data)` (source lines 103–131): reject when no session
is in progress; otherwise copy the packet at the cursor and add its size
to `bytesReceived` (u32 arithmetic).  On reaching the declared length the
session completes: `executeUpdate` is raised and `bUpdateInProgress`
cleared (the cursor is *not* advanced on this branch); otherwise the
cursor advances.  Ghost: `completeCount` counts the completion branch. -/
def sendDataPacket (data : List UInt8) (s : SysState) : ErrorCode × SysState :=
  if !s.ctxt.bUpdateInProgress then (e_EC_UPDATE_NOT_IN_PROGRESS, s)
  else
    let mem1 := memcpyS s.mem s.ctxt.fwImagePtr data
    let br1 := (s.ctxt.bytesReceived + data.length) % 2 ^ 32
    if br1 ≥ s.ctxt.length then
      (e_EC_SUCCESS,
       { s with mem := mem1,
                ctxt := { s.ctxt with bytesReceived := br1,
                                      bUpdateInProgress := false },
                executeUpdate := true,
                completeCount := s.completeCount + 1 })
    else
      (e_EC_SUCCESS,
       { s with mem := mem1,
                ctxt := { s.ctxt with bytesReceived := br1,
                                      fwImagePtr := s.ctxt.fwImagePtr + data.length } })

/-- `doCrcCheck()` (source lines 133–149): only a buffer whose header
type-checks as a kernel image is CRC-checked; the function returns 1
exactly when the type check and the data CRC both pass.  On a recognized
type it records `crcreturn=0` first and overwrites it with `crcreturn=1`
on CRC failure. -/
def doCrcCheck (cb : Collab) (s : SysState) : Nat × SysState :=
  if cb.image_check_type s.mem s.ctxt.fwImageBase then
    let s1 := setenvS "crcreturn" "0" s
    if !cb.image_check_dcrc s1.mem s1.ctxt.fwImageBase then
      (0, setenvS "crcreturn" "1" s1)
    else
      (1, s1)
  else
    (0, s)

/-- `executeFirmwareUpdate()` (source lines 151–167): a failing
`doCrcCheck` yields `UPDATE_CORRUPT_IMAGE` (return 1) without invoking
the shell; otherwise the stored command runs through the HUSH parser,
yielding `UPDATE_NOT_EXECUTED` (return 1) on a non-zero exit code and
`UPDATE_SUCCESS` (return 0) otherwise.  Ghost: `shellCalls` counts shell
invocations. -/
def executeFirmwareUpdate (cb : Collab) (s : SysState) : Int × SysState :=
  let r := doCrcCheck cb s
  if r.fst = 0 then
    (1, { r.snd with execState := ExecState.UPDATE_CORRUPT_IMAGE })
  else
    let s1 := { r.snd with shellCalls := r.snd.shellCalls + 1 }
    if cb.parse_string_outer s1.ctxt.cmd ≠ 0 then
      (1, { s1 with execState := ExecState.UPDATE_NOT_EXECUTED })
    else
      (0, { s1 with execState := ExecState.UPDATE_SUCCESS })

/-- `sendCommand(cmd)` (source lines 169–179): run the command through
the shell, reporting `e_EC_NOT_EXECUTED` on a non-zero exit code. -/
def sendCommand (cb : Collab) (cmd : String) (s : SysState) :
    ErrorCode × SysState :=
  let s1 := { s with shellCalls := s.shellCalls + 1 }
  if cb.parse_string_outer cmd ≠ 0 then (e_EC_NOT_EXECUTED, s1)
  else (e_EC_SUCCESS, s1)

/-- `remainInBootloader()` (source lines 181–186). -/
def remainInBootloader (s : SysState) : ErrorCode × SysState :=
  (e_EC_SUCCESS, { s with firmwareUpdate := true })

/-- `requestBootDelay()` (source lines 188–193). -/
def requestBootDelay (s : SysState) : ErrorCode × SysState :=
  (e_EC_SUCCESS, { s with bootDelay := true })

/-- `get_eventQueueEnabled(eventCode, &enabled)` (source lines 195–200):
the `eventCode` parameter is overwritten locally and never read; the
global `queueEnabled` flag is returned regardless. -/
def get_eventQueueEnabled (eventCode : Nat) (s : SysState) : ErrorCode × Bool :=
  (e_EC_SUCCESS, s.queueEnabled)

/-- `set_eventQueueEnabled(eventCode, enabled)` (source lines 202–207):
sets the single global `queueEnabled` flag; `eventCode` is not read. -/
def set_eventQueueEnabled (eventCode : Nat) (enabled : Bool) (s : SysState) :
    ErrorCode × SysState :=
  (e_EC_SUCCESS, { s with queueEnabled := enabled })

/-- The caller-owned `FirmwareUpdate__GenericEvent` struct: the event
code, the first payload byte cell (which the source writes with the
`*state` value) and the payload size. -/
structure GenericEvent where
  eventCode : Nat
  dataHead : ExecState
  dataSize : Nat
  deriving DecidableEq, Repr

/-- `get_nextQueuedEvent(&event)` (source lines 209–223): when an event
is pending, fill in the firmware-update event code and the execution
state and clear `eventValid`; otherwise only the event code is written
(`NULL_EVENT`), the rest of the caller's struct is left as it was. -/
def get_nextQueuedEvent (event : GenericEvent) (s : SysState) :
    ErrorCode × GenericEvent × SysState :=
  if s.eventValid then
    (e_EC_SUCCESS,
     { eventCode := FIRMWARE_UPDATE_EVENT, dataHead := s.execState,
       dataSize := 1 },
     { s with eventValid := false })
  else
    (e_EC_SUCCESS, { event with eventCode := NULL_EVENT }, s)

/- ------------------------------------------------------------------ -/
/- Claims C5, C9, C10: direct properties of the session accessors.     -/
/- ------------------------------------------------------------------ -/

/-- C5: `start` always resets the session context (cursor to buffer
base, declared length stored, received count zeroed, command stored,
in-progress raised) and returns the distinguished already-in-progress
code exactly when a prior session was active; the reset is the same in
that case (the prior session is superseded). -/
theorem startFirmwareUpdate_resets_and_flags_supersession
    (cmd : String) (length : Nat) (s : SysState) :
    (startFirmwareUpdate cmd length s).snd.ctxt =
      { bUpdateInProgress := true, length := length, bytesReceived := 0,
        fwImageBase := FWUPDATE_BUFFER, fwImagePtr := FWUPDATE_BUFFER,
        cmd := cmd } ∧
    ((startFirmwareUpdate cmd length s).fst = e_EC_UPDATE_ALREADY_IN_PROGRESS
        ↔ s.ctxt.bUpdateInProgress = true) ∧
    (startFirmwareUpdate cmd length s).snd =
      { s with ctxt := (startFirmwareUpdate cmd length s).snd.ctxt } := by
  refine ⟨rfl, ?_, rfl⟩
  unfold startFirmwareUpdate
  cases h : s.ctxt.bUpdateInProgress <;> simp [h]

/-- C9: a data packet arriving while no session is in progress is
answered with `e_EC_UPDATE_NOT_IN_PROGRESS` and the state — session
context, staging memory, counters, everything — is returned unchanged. -/
theorem sendDataPacket_not_in_progress
    (data : List UInt8) (s : SysState)
    (h : s.ctxt.bUpdateInProgress = false) :
    sendDataPacket data s = (e_EC_UPDATE_NOT_IN_PROGRESS, s) := by
  unfold sendDataPacket
  simp [h]

/-- Witness for C9 at a concrete state and packet. -/
theorem sendDataPacket_not_in_progress_witness :
    sendDataPacket [0xDE, 0xAD] initState =
      (e_EC_UPDATE_NOT_IN_PROGRESS, initState) :=
  sendDataPacket_not_in_progress [0xDE, 0xAD] initState rfl

/-- C10: the event-queue enable state is one global flag, independent of
the `eventCode` argument: setting with the same `enabled` value yields
identical states for any two event codes, and the getter reports the
global flag for any event code. -/
theorem eventQueueEnabled_ignores_eventCode
    (c1 c2 : Nat) (b : Bool) (s : SysState) :
    set_eventQueueEnabled c1 b s = set_eventQueueEnabled c2 b s ∧
    get_eventQueueEnabled c1 s = get_eventQueueEnabled c2 s ∧
    (get_eventQueueEnabled c1 s).snd = s.queueEnabled :=
  ⟨rfl, rfl, rfl⟩

/- ------------------------------------------------------------------ -/
/- Claim C2: session invariant over start/acceptPacket traces.         -/
/- ------------------------------------------------------------------ -/

/-- A session-level operation: a `startFirmwareUpdate` call or a
`sendDataPacket` call. -/
inductive FwOp where
  | start (cmd : String) (length : Nat)
  | packet (data : List UInt8)
  deriving Repr

/-- Apply one session operation to the state (the returned error code is
not part of the state). -/
def applyOp (s : SysState) (op : FwOp) : SysState :=
  match op with
  | FwOp.start cmd length => (startFirmwareUpdate cmd length s).snd
  | FwOp.packet data => (sendDataPacket data s).snd

/-- Run a sequence of session operations. -/
def runOps (s : SysState) (ops : List FwOp) : SysState :=
  ops.foldl applyOp s

/-- One operation is non-overshooting at a state when a `start` declares
a length representable in `uint32_t`, and a packet accepted into an
in-progress session fits within the bytes still expected. -/
def stepOk (s : SysState) (op : FwOp) : Bool :=
  match op with
  | FwOp.start _ length => decide (length < 2 ^ 32)
  | FwOp.packet data =>
    !s.ctxt.bUpdateInProgress ||
      decide (s.ctxt.bytesReceived + data.length ≤ s.ctxt.length)

/-- A non-overshooting trace: every operation is non-overshooting at the
state it encounters. -/
def noOvershoot : SysState → List FwOp → Bool
  | _, [] => true
  | s, op :: rest => stepOk s op && noOvershoot (applyOp s op) rest

/-- Helper: a data packet is rejected without any state change when no
session is in progress. -/
theorem sendDataPacket_idle (data : List UInt8) (s : SysState)
    (h : s.ctxt.bUpdateInProgress = false) :
    sendDataPacket data s = (e_EC_UPDATE_NOT_IN_PROGRESS, s) := by
  unfold sendDataPacket
  simp [h]

/-- The inductive invariant for C2. -/
def sessionInv (s : SysState) : Prop :=
  s.ctxt.length < 2 ^ 32 ∧
  s.ctxt.bytesReceived ≤ s.ctxt.length ∧
  (s.ctxt.bUpdateInProgress = true →
    s.ctxt.fwImageBase ≤ s.ctxt.fwImagePtr ∧
    s.ctxt.fwImagePtr - s.ctxt.fwImageBase = s.ctxt.bytesReceived)

theorem sessionInv_step (s : SysState) (op : FwOp)
    (hInv : sessionInv s) (hOp : stepOk s op = true) :
    sessionInv (applyOp s op) := by
  obtain ⟨hLen, hBr, hPtr⟩ := hInv
  cases op with
  | start cmd length =>
    simp only [stepOk, decide_eq_true_eq] at hOp
    unfold applyOp startFirmwareUpdate
    exact ⟨hOp, Nat.zero_le _, fun _ => ⟨Nat.le_refl _, Nat.sub_self _⟩⟩
  | packet data =>
    cases hip : s.ctxt.bUpdateInProgress with
    | false =>
      have heq : applyOp s (FwOp.packet data) = s := by
        show (sendDataPacket data s).snd = s
        rw [sendDataPacket_idle data s hip]
      rw [heq]
      exact ⟨hLen, hBr, hPtr⟩
    | true =>
      simp only [stepOk, hip, Bool.not_true, Bool.false_or,
        decide_eq_true_eq] at hOp
      have hNoWrap : (s.ctxt.bytesReceived + data.length) % 2 ^ 32 =
          s.ctxt.bytesReceived + data.length :=
        Nat.mod_eq_of_lt (Nat.lt_of_le_of_lt hOp hLen)
      obtain ⟨hBase, hOff⟩ := hPtr hip
      unfold applyOp sendDataPacket
      simp only [hip, Bool.not_true, Bool.false_eq_true, if_false]
      split
      · refine ⟨hLen, ?_, ?_⟩
        · dsimp only
          rw [hNoWrap]
          exact hOp
        · dsimp only
          intro hcontra
          exact absurd hcontra (by simp)
      · refine ⟨hLen, ?_, fun _ => ⟨?_, ?_⟩⟩
        · dsimp only
          rw [hNoWrap]
          exact hOp
        · dsimp only
          omega
        · dsimp only
          rw [hNoWrap]
          omega

theorem sessionInv_run (ops : List FwOp) (s : SysState)
    (hInv : sessionInv s) (hOps : noOvershoot s ops = true) :
    sessionInv (runOps s ops) := by
  induction ops generalizing s with
  | nil => exact hInv
  | cons op rest ih =>
    simp only [noOvershoot, Bool.and_eq_true] at hOps
    exact ih (applyOp s op) (sessionInv_step s op hInv hOps.1) hOps.2

/-- C2 (amended): along any non-overshooting trace of `start` and
`acceptPacket` operations from the boot state, `bytesReceived ≤ length`
holds at every point, and while a session is in progress the cursor
offset equals `bytesReceived` (`fwImagePtr - fwImageBase = bytesReceived`
with `fwImageBase ≤ fwImagePtr`).  Every point of a non-overshooting
trace is the end state of a non-overshooting prefix, so this statement
covers all intermediate states. -/
theorem session_invariant_no_overshoot
    (ops : List FwOp) (h : noOvershoot initState ops = true) :
    (runOps initState ops).ctxt.bytesReceived ≤ (runOps initState ops).ctxt.length ∧
    ((runOps initState ops).ctxt.bUpdateInProgress = true →
      (runOps initState ops).ctxt.fwImageBase ≤ (runOps initState ops).ctxt.fwImagePtr ∧
      (runOps initState ops).ctxt.fwImagePtr - (runOps initState ops).ctxt.fwImageBase =
        (runOps initState ops).ctxt.bytesReceived) := by
  have hInit : sessionInv initState := by
    refine ⟨by norm_num [initState], Nat.le_refl _, fun hip => ?_⟩
    simp [initState] at hip
  obtain ⟨_, h2, h3⟩ := sessionInv_run ops initState hInit h
  exact ⟨h2, h3⟩

/-- Witness for C2 (amended) on a concrete non-overshooting trace. -/
theorem session_invariant_no_overshoot_witness :
    noOvershoot initState
      [FwOp.start "run commit" 8, FwOp.packet [1, 2, 3], FwOp.packet [4, 5]] = true ∧
    (runOps initState
      [FwOp.start "run commit" 8, FwOp.packet [1, 2, 3], FwOp.packet [4, 5]]).ctxt.bytesReceived ≤
      (runOps initState
        [FwOp.start "run commit" 8, FwOp.packet [1, 2, 3], FwOp.packet [4, 5]]).ctxt.length :=
  ⟨by decide,
   (session_invariant_no_overshoot
     [FwOp.start "run commit" 8, FwOp.packet [1, 2, 3], FwOp.packet [4, 5]]
     (by decide)).1⟩

/-- Counterexample to C2 as stated: after `start(_, 2)` followed by a
four-byte packet, `bytesReceived = 4 > 2 = length`, and the cursor was
never advanced (`fwImagePtr - fwImageBase = 0 ≠ 4`), so both conjuncts of
the claimed invariant fail at this point of the trace. -/
theorem session_invariant_counterexample :
    ¬ ((runOps initState
          [FwOp.start "c" 2, FwOp.packet [1, 2, 3, 4]]).ctxt.bytesReceived ≤
        (runOps initState
          [FwOp.start "c" 2, FwOp.packet [1, 2, 3, 4]]).ctxt.length) ∧
    (runOps initState
        [FwOp.start "c" 2, FwOp.packet [1, 2, 3, 4]]).ctxt.fwImagePtr -
      (runOps initState
        [FwOp.start "c" 2, FwOp.packet [1, 2, 3, 4]]).ctxt.fwImageBase ≠
      (runOps initState
        [FwOp.start "c" 2, FwOp.packet [1, 2, 3, 4]]).ctxt.bytesReceived := by
  constructor
  · decide
  · decide

/- ------------------------------------------------------------------ -/
/- Claim C1: the Update Executor against its reference definition.     -/
/- ------------------------------------------------------------------ -/

/-- Reference definition of the executor per the amended claim: an
*unrecognized* image type is not CRC-checked and nothing is persisted to
the variable store, but the outcome is `CorruptImage` and the
post-command does not run; a recognized type records `crcreturn=0`, and
on CRC failure persists the failure indicator `crcreturn=1` and yields
`CorruptImage` without running the post-command; otherwise the
post-command runs, yielding `NotExecuted` on a non-zero shell outcome
and `Success` otherwise. -/
def executeRef (cb : Collab) (s : SysState) : Int × SysState :=
  if cb.image_check_type s.mem s.ctxt.fwImageBase then
    let s0 := setenvS "crcreturn" "0" s
    if cb.image_check_dcrc s0.mem s0.ctxt.fwImageBase then
      let s1 := { s0 with shellCalls := s0.shellCalls + 1 }
      if cb.parse_string_outer s1.ctxt.cmd ≠ 0 then
        (1, { s1 with execState := ExecState.UPDATE_NOT_EXECUTED })
      else
        (0, { s1 with execState := ExecState.UPDATE_SUCCESS })
    else
      (1, { setenvS "crcreturn" "1" s0 with
              execState := ExecState.UPDATE_CORRUPT_IMAGE })
  else
    (1, { s with execState := ExecState.UPDATE_CORRUPT_IMAGE })

/-- C1 (amended): `executeFirmwareUpdate` coincides with the amended
reference definition `executeRef` for every collaborator behaviour and
every state. -/
theorem executeFirmwareUpdate_follows_ref (cb : Collab) (s : SysState) :
    executeFirmwareUpdate cb s = executeRef cb s := by
  unfold executeFirmwareUpdate executeRef doCrcCheck
  cases h1 : cb.image_check_type s.mem s.ctxt.fwImageBase with
  | false => simp [h1, setenvS]
  | true =>
    cases h2 : cb.image_check_dcrc s.mem s.ctxt.fwImageBase with
    | false => simp [h1, h2, setenvS]
    | true =>
      by_cases h3 : cb.parse_string_outer s.ctxt.cmd = 0
      · simp [h1, h2, h3, setenvS]
      · simp [h1, h2, h3, setenvS]

/-- A collaborator behaviour under which the staged image's type is
unrecognized and the shell would report success. -/
def cbUnrecognized : Collab where
  image_check_type := fun _ _ => false
  image_check_dcrc := fun _ _ => true
  parse_string_outer := fun _ => 0

/-- Counterexample to C1 as stated: when image validation reports the
staged image's type is unrecognized, the executor yields
`UPDATE_CORRUPT_IMAGE` and returns 1 without ever invoking the shell —
the claim says an unrecognized type is treated as vacuously valid and
never yields `CorruptImage`. -/
theorem executeFirmwareUpdate_unrecognized_counterexample :
    (executeFirmwareUpdate cbUnrecognized initState).snd.execState =
        ExecState.UPDATE_CORRUPT_IMAGE ∧
    (executeFirmwareUpdate cbUnrecognized initState).snd.shellCalls = 0 ∧
    (executeFirmwareUpdate cbUnrecognized initState).fst = 1 :=
  ⟨rfl, rfl, rfl⟩

/- ------------------------------------------------------------------ -/
/- Claim C6: the single-slot event latch.                              -/
/- ------------------------------------------------------------------ -/

/-- The dispatcher's arming of the event latch (source line 288:
`eventValid = TRUE;`). -/
def armEventLatch (s : SysState) : SysState :=
  { s with eventValid := true }

/-- C6: the latch holds at most one pending event — arming twice equals
arming once (overwrite, never queue); a poll of an armed latch delivers
the firmware-update event and exactly clears the pending flag; and a
poll of the drained latch returns the null event code and leaves the
state untouched, so every further poll before the next arm returns
no-event (poll is idempotent once drained). -/
theorem eventLatch_single_slot_poll_idempotent
    (s : SysState) (e e2 : GenericEvent) :
    armEventLatch (armEventLatch s) = armEventLatch s ∧
    (get_nextQueuedEvent e (armEventLatch s)).snd.fst.eventCode =
        FIRMWARE_UPDATE_EVENT ∧
    (get_nextQueuedEvent e (armEventLatch s)).snd.snd =
        { armEventLatch s with eventValid := false } ∧
    get_nextQueuedEvent e2 (get_nextQueuedEvent e (armEventLatch s)).snd.snd =
        (e_EC_SUCCESS, { e2 with eventCode := NULL_EVENT },
         (get_nextQueuedEvent e (armEventLatch s)).snd.snd) :=
  ⟨rfl, rfl, rfl, rfl⟩

/- ------------------------------------------------------------------ -/
/- The Request Dispatcher and the Boot Decision Sequencer.             -/
/- ------------------------------------------------------------------ -/

/-- The code-image context enum of the IDL. -/
inductive CodeImageType where
  | e_CODE_IMAGE_BOOT
  | e_CODE_IMAGE_MAIN
  deriving DecidableEq, Repr

/-- `get_ExecutingImageType(&value)` (source lines 61–64). -/
def get_ExecutingImageType : ErrorCode × CodeImageType :=
  (e_EC_SUCCESS, CodeImageType.e_CODE_IMAGE_BOOT)

/-- Modelled from the spec: the class-code constants come from the
message-header collaborator, whose header is not part of this
repository slice; only their distinctness is observable here. -/
def k_CC_FirmwareUpdate : Nat := 1

/-- Modelled from the spec: see `k_CC_FirmwareUpdate`. -/
def k_CC_AvbSystem : Nat := 2

/-- Modelled from the spec: `getPayloadOffset_resp` of the response
frame — the fixed header size of a response message. -/
def PAYLOAD_OFFSET : Nat := 4

/-- The response frame as the dispatcher observes it: its status code
and its reported total length. -/
structure ResponseFrame where
  statusCode : ErrorCode
  length : Nat
  deriving DecidableEq, Repr

/-- The response produced by the dispatcher's `default` arm for an
unroutable class code: `e_EC_INVALID_SERVICE_CODE` with an empty
payload (`length = payloadOffset`). -/
def invalidServiceResponse : ResponseFrame :=
  { statusCode := e_EC_INVALID_SERVICE_CODE, length := PAYLOAD_OFFSET }

/-- The decoded operation carried by a request frame (the service /
attribute fan-out of the unmarshal collaborator). -/
inductive ReqOp where
  | sendCommandOp (cmd : String)
  | startOp (cmd : String) (length : Nat)
  | dataOp (data : List UInt8)
  | getExecutingImageTypeOp
  | getEventQueueEnabledOp (eventCode : Nat)
  | setEventQueueEnabledOp (eventCode : Nat) (enabled : Bool)
  | getNextQueuedEventOp
  | remainInBootloaderOp
  | requestBootDelayOp
  deriving Repr

/-- A request frame: the class code the dispatcher switches on and the
operation the unmarshal collaborator decodes from it. -/
structure RequestFrame where
  classCode : Nat
  op : ReqOp
  deriving Repr

/-- Modelled from the spec: `FirmwareUpdate__unmarshal(request,
response)` — the unmarshal/dispatch collaborator (its source is not in
this repository slice).  It decodes the service/attribute code, invokes
the matching operation, and fills the response with the operation's
status code and a length of payload offset plus payload size. -/
def FirmwareUpdate__unmarshal (cb : Collab) (req : RequestFrame)
    (s : SysState) : ResponseFrame × SysState :=
  match req.op with
  | ReqOp.sendCommandOp cmd =>
    let r := sendCommand cb cmd s
    ({ statusCode := r.fst, length := PAYLOAD_OFFSET }, r.snd)
  | ReqOp.startOp cmd length =>
    let r := startFirmwareUpdate cmd length s
    ({ statusCode := r.fst, length := PAYLOAD_OFFSET }, r.snd)
  | ReqOp.dataOp data =>
    let r := sendDataPacket data s
    ({ statusCode := r.fst, length := PAYLOAD_OFFSET }, r.snd)
  | ReqOp.getExecutingImageTypeOp =>
    ({ statusCode := get_ExecutingImageType.fst, length := PAYLOAD_OFFSET + 1 }, s)
  | ReqOp.getEventQueueEnabledOp c =>
    let r := get_eventQueueEnabled c s
    ({ statusCode := r.fst, length := PAYLOAD_OFFSET + 1 }, s)
  | ReqOp.setEventQueueEnabledOp c b =>
    let r := set_eventQueueEnabled c b s
    ({ statusCode := r.fst, length := PAYLOAD_OFFSET }, r.snd)
  | ReqOp.getNextQueuedEventOp =>
    let r := get_nextQueuedEvent
      { eventCode := 0, dataHead := ExecState.UPDATE_SUCCESS, dataSize := 0 } s
    ({ statusCode := r.fst,
       length := PAYLOAD_OFFSET + 1 + r.snd.fst.dataSize }, r.snd.snd)
  | ReqOp.remainInBootloaderOp =>
    let r := remainInBootloader s
    ({ statusCode := r.fst, length := PAYLOAD_OFFSET }, r.snd)
  | ReqOp.requestBootDelayOp =>
    let r := requestBootDelay s
    ({ statusCode := r.fst, length := PAYLOAD_OFFSET }, r.snd)

/-- Steps 2–3 of one iteration of `DoFirmwareUpdate`'s loop (source
lines 243–272): the `switch` routes *both* recognized classes to the
unmarshal collaborator; any other class code is answered with the
invalid-service-code response.  The response is then written back sized
to its reported length (`respSize = getLength_resp(response)`), which
does not change the state modelled here. -/
def processRequestMain (cb : Collab) (req : RequestFrame) (s : SysState) :
    ResponseFrame × SysState :=
  if req.classCode = k_CC_FirmwareUpdate ∨ req.classCode = k_CC_AvbSystem then
    FirmwareUpdate__unmarshal cb req s
  else
    (invalidServiceResponse, s)

/-- The per-request processing of the boot polling window (source lines
370–384): the `switch` routes *only* `k_CC_FirmwareUpdate` to the
unmarshal collaborator; everything else — including `k_CC_AvbSystem` —
is answered with the invalid-service-code response. -/
def processRequestBoot (cb : Collab) (req : RequestFrame) (s : SysState) :
    ResponseFrame × SysState :=
  if req.classCode = k_CC_FirmwareUpdate then
    FirmwareUpdate__unmarshal cb req s
  else
    (invalidServiceResponse, s)

/-- Step 4 of the dispatcher loop (source lines 284–291): if the
just-processed request completed a transfer, invoke
`executeFirmwareUpdate`, clear `executeUpdate`, and — only when the
event queue is enabled — arm the event latch and raise the transport's
asynchronous notification (`TrigAsyncLabXMailbox`).  Ghost: `execCount`
counts executor invocations, `asyncSignals` counts notifications. -/
def postResponseStep (cb : Collab) (s : SysState) : SysState :=
  if s.executeUpdate then
    let s1 := (executeFirmwareUpdate cb s).snd
    let s2 := { s1 with executeUpdate := false, execCount := s1.execCount + 1 }
    if s2.queueEnabled then
      { s2 with eventValid := true, asyncSignals := s2.asyncSignals + 1 }
    else
      s2
  else
    s

/-- One full iteration of `DoFirmwareUpdate`'s loop body for a received
request. -/
def mainIteration (cb : Collab) (s : SysState) (req : RequestFrame) : SysState :=
  postResponseStep cb (processRequestMain cb req s).snd

/-- The unbounded dispatcher loop of `DoFirmwareUpdate` (source lines
235–298), run over the trace of requests delivered by the blocking
mailbox reads. -/
def DoFirmwareUpdateLoop (cb : Collab) (reqs : List RequestFrame)
    (s : SysState) : SysState :=
  reqs.foldl (mainIteration cb) s

/-- The boot polling window (source lines 356–403): up to four
non-blocking mailbox polls, sleeping the sub-interval on an empty poll,
processing a received request per `processRequestBoot` and breaking out
early when the written response carries `e_EC_SUCCESS`.  The trace of
poll results is a list of `Option RequestFrame` (one entry per attempt,
`none` for an empty poll). -/
def pollWindow (cb : Collab) : Nat → List (Option RequestFrame) → SysState → SysState
  | 0, _, s => s
  | _ + 1, [], s => s
  | n + 1, none :: rest, s => pollWindow cb n rest s
  | n + 1, some req :: rest, s =>
    let r := processRequestBoot cb req s
    if r.fst.statusCode = e_EC_SUCCESS then r.snd
    else pollWindow cb n rest r.snd

/-- The outcome of the Boot Decision Sequencer: `updateMode` stands for
the branch that runs `DoFirmwareUpdate()` and then `while(1);` — it
never returns; `ret v` is a normal return of `v`. -/
inductive BootOutcome where
  | updateMode
  | ret (v : Nat)
  deriving DecidableEq, Repr

/-- `CheckFirmwareUpdate()` (source lines 308–429).  The ICAP GENERAL5
probe is raw hardware I/O; its result is the `readValue` input.  After
the polling window: the fallback magic or the `firmwareUpdate` flag
selects update mode (`doUpdate`); otherwise the `bootDelay` flag selects
return value 1, else 0.  The state paired with `updateMode` is the state
in which the unbounded dispatcher loop then starts. -/
def CheckFirmwareUpdate (cb : Collab) (readValue : Nat)
    (polls : List (Option RequestFrame)) (s : SysState) :
    BootOutcome × SysState :=
  let s1 := pollWindow cb 4 polls s
  let doUpdate := decide (readValue = GENERAL5_MAGIC) || s1.firmwareUpdate
  if doUpdate then (BootOutcome.updateMode, s1)
  else if s1.bootDelay then (BootOutcome.ret 1, s1)
  else (BootOutcome.ret 0, s1)

/- ------------------------------------------------------------------ -/
/- Helper lemmas about the executor and the dispatcher step.           -/
/- ------------------------------------------------------------------ -/

/-- A trivial collaborator behaviour used for concrete witnesses:
recognized image type, passing CRC, shell exit code 0. -/
def cbTriv : Collab where
  image_check_type := fun _ _ => true
  image_check_dcrc := fun _ _ => true
  parse_string_outer := fun _ => 0

theorem executeFirmwareUpdate_frame (cb : Collab) (s : SysState) :
    (executeFirmwareUpdate cb s).snd.ctxt = s.ctxt ∧
    (executeFirmwareUpdate cb s).snd.executeUpdate = s.executeUpdate ∧
    (executeFirmwareUpdate cb s).snd.queueEnabled = s.queueEnabled ∧
    (executeFirmwareUpdate cb s).snd.eventValid = s.eventValid ∧
    (executeFirmwareUpdate cb s).snd.bootDelay = s.bootDelay ∧
    (executeFirmwareUpdate cb s).snd.firmwareUpdate = s.firmwareUpdate ∧
    (executeFirmwareUpdate cb s).snd.mem = s.mem ∧
    (executeFirmwareUpdate cb s).snd.execCount = s.execCount ∧
    (executeFirmwareUpdate cb s).snd.completeCount = s.completeCount ∧
    (executeFirmwareUpdate cb s).snd.asyncSignals = s.asyncSignals := by
  unfold executeFirmwareUpdate doCrcCheck setenvS
  cases h1 : cb.image_check_type s.mem s.ctxt.fwImageBase <;>
    cases h2 : cb.image_check_dcrc s.mem s.ctxt.fwImageBase <;>
      by_cases h3 : cb.parse_string_outer s.ctxt.cmd = 0 <;>
        simp [h1, h2, h3]

theorem executeFirmwareUpdate_queueEnabled (cb : Collab) (s : SysState) (b : Bool) :
    executeFirmwareUpdate cb { s with queueEnabled := b } =
      ((executeFirmwareUpdate cb s).fst,
       { (executeFirmwareUpdate cb s).snd with queueEnabled := b }) := by
  unfold executeFirmwareUpdate doCrcCheck setenvS
  cases h1 : cb.image_check_type s.mem s.ctxt.fwImageBase <;>
    cases h2 : cb.image_check_dcrc s.mem s.ctxt.fwImageBase <;>
      by_cases h3 : cb.parse_string_outer s.ctxt.cmd = 0 <;>
        simp [h1, h2, h3]

theorem postResponseStep_idle (cb : Collab) (s : SysState)
    (h : s.executeUpdate = false) : postResponseStep cb s = s := by
  unfold postResponseStep
  simp [h]

theorem postResponseStep_fires (cb : Collab) (s : SysState)
    (h : s.executeUpdate = true) :
    (postResponseStep cb s).executeUpdate = false ∧
    (postResponseStep cb s).execCount = s.execCount + 1 ∧
    (postResponseStep cb s).completeCount = s.completeCount ∧
    (postResponseStep cb s).ctxt = s.ctxt := by
  obtain ⟨f1, _, _, _, _, _, _, f8, f9, _⟩ := executeFirmwareUpdate_frame cb s
  unfold postResponseStep
  by_cases hq : (executeFirmwareUpdate cb s).snd.queueEnabled <;>
    simp [h, hq, f1, f8, f9]

theorem mainIteration_data (cb : Collab) (d : List UInt8) (s : SysState) :
    mainIteration cb s { classCode := k_CC_FirmwareUpdate, op := ReqOp.dataOp d } =
      postResponseStep cb (sendDataPacket d s).snd := rfl

theorem mainIteration_start (cb : Collab) (cmd : String) (L : Nat) (s : SysState) :
    mainIteration cb s { classCode := k_CC_FirmwareUpdate, op := ReqOp.startOp cmd L } =
      postResponseStep cb (startFirmwareUpdate cmd L s).snd := rfl

/-- Data requests hitting a closed session with no pending execution
leave the dispatcher state completely unchanged. -/
theorem dataLoop_idle (cb : Collab) (ps : List (List UInt8)) (s : SysState)
    (hip : s.ctxt.bUpdateInProgress = false) (hex : s.executeUpdate = false) :
    DoFirmwareUpdateLoop cb (ps.map (fun d =>
      { classCode := k_CC_FirmwareUpdate, op := ReqOp.dataOp d })) s = s := by
  induction ps with
  | nil => rfl
  | cons d t ih =>
    have h1 : mainIteration cb s
        { classCode := k_CC_FirmwareUpdate, op := ReqOp.dataOp d } = s := by
      rw [mainIteration_data, sendDataPacket_idle d s hip]
      exact postResponseStep_idle cb s hex
    simp only [List.map_cons, DoFirmwareUpdateLoop, List.foldl_cons] at ih ⊢
    rw [h1]
    exact ih

/-- The state after a non-completing packet accepted by an in-progress
session, with no pending execution: the dispatcher's step 4 does not
fire. -/
theorem afterAdvance (cb : Collab) (d : List UInt8) (s : SysState)
    (hip : s.ctxt.bUpdateInProgress = true)
    (hex : s.executeUpdate = false)
    (hdone : ¬ (s.ctxt.bytesReceived + d.length) % 2 ^ 32 ≥ s.ctxt.length) :
    postResponseStep cb (sendDataPacket d s).snd = { s with
      mem := memcpyS s.mem s.ctxt.fwImagePtr d,
      ctxt := { s.ctxt with
                  bytesReceived := (s.ctxt.bytesReceived + d.length) % 2 ^ 32,
                  fwImagePtr := s.ctxt.fwImagePtr + d.length } } := by
  have hsd : (sendDataPacket d s).snd = { s with
      mem := memcpyS s.mem s.ctxt.fwImagePtr d,
      ctxt := { s.ctxt with
                  bytesReceived := (s.ctxt.bytesReceived + d.length) % 2 ^ 32,
                  fwImagePtr := s.ctxt.fwImagePtr + d.length } } := by
    unfold sendDataPacket
    rw [if_neg, if_neg hdone]
    simp [hip]
  rw [hsd]
  exact postResponseStep_idle cb _ hex

/-- After a completing packet, step 4 of the dispatcher runs the
executor once, clears the pending flag, and the session stays closed. -/
theorem afterComplete (cb : Collab) (d : List UInt8) (s : SysState)
    (hip : s.ctxt.bUpdateInProgress = true)
    (hdone : (s.ctxt.bytesReceived + d.length) % 2 ^ 32 ≥ s.ctxt.length) :
    (postResponseStep cb (sendDataPacket d s).snd).executeUpdate = false ∧
    (postResponseStep cb (sendDataPacket d s).snd).execCount = s.execCount + 1 ∧
    (postResponseStep cb (sendDataPacket d s).snd).completeCount = s.completeCount + 1 ∧
    (postResponseStep cb (sendDataPacket d s).snd).ctxt.bUpdateInProgress = false := by
  have hsd : (sendDataPacket d s).snd = { s with
      mem := memcpyS s.mem s.ctxt.fwImagePtr d,
      ctxt := { s.ctxt with
                  bytesReceived := (s.ctxt.bytesReceived + d.length) % 2 ^ 32,
                  bUpdateInProgress := false },
      executeUpdate := true,
      completeCount := s.completeCount + 1 } := by
    unfold sendDataPacket
    rw [if_neg, if_pos hdone]
    simp [hip]
  obtain ⟨p1, p2, p3, p4⟩ := postResponseStep_fires cb (sendDataPacket d s).snd
    (by rw [hsd])
  refine ⟨p1, ?_, ?_, ?_⟩
  · rw [p2, hsd]
  · rw [p3, hsd]
  · rw [p4, hsd]

/-- The packet phase of a transfer whose packets sum exactly to the
remaining expected bytes: the completion branch is taken exactly once,
the executor runs exactly once, and the session finishes closed with no
pending execution. -/
theorem packets_phase (cb : Collab) (pkts : List (List UInt8)) :
    ∀ s : SysState, s.ctxt.bUpdateInProgress = true → s.executeUpdate = false →
    s.ctxt.length < 2 ^ 32 →
    s.ctxt.bytesReceived + (pkts.map List.length).sum = s.ctxt.length →
    pkts ≠ [] →
    (DoFirmwareUpdateLoop cb (pkts.map (fun d =>
        { classCode := k_CC_FirmwareUpdate, op := ReqOp.dataOp d })) s).completeCount
      = s.completeCount + 1 ∧
    (DoFirmwareUpdateLoop cb (pkts.map (fun d =>
        { classCode := k_CC_FirmwareUpdate, op := ReqOp.dataOp d })) s).execCount
      = s.execCount + 1 ∧
    (DoFirmwareUpdateLoop cb (pkts.map (fun d =>
        { classCode := k_CC_FirmwareUpdate, op := ReqOp.dataOp d })) s).executeUpdate
      = false ∧
    (DoFirmwareUpdateLoop cb (pkts.map (fun d =>
        { classCode := k_CC_FirmwareUpdate, op := ReqOp.dataOp d })) s).ctxt.bUpdateInProgress
      = false := by
  induction pkts with
  | nil => intro s _ _ _ _ hne; exact absurd rfl hne
  | cons d ps ih =>
    intro s hip hex hlen hsum _
    have hsum2 : s.ctxt.bytesReceived + d.length + (ps.map List.length).sum =
        s.ctxt.length := by
      simp only [List.map_cons, List.sum_cons] at hsum
      omega
    have hfit : s.ctxt.bytesReceived + d.length ≤ s.ctxt.length := by omega
    have hNoWrap : (s.ctxt.bytesReceived + d.length) % 2 ^ 32 =
        s.ctxt.bytesReceived + d.length :=
      Nat.mod_eq_of_lt (Nat.lt_of_le_of_lt hfit hlen)
    simp only [List.map_cons, DoFirmwareUpdateLoop, List.foldl_cons]
    rw [mainIteration_data]
    by_cases hdone : (s.ctxt.bytesReceived + d.length) % 2 ^ 32 ≥ s.ctxt.length
    · obtain ⟨p1, p2, p3, p4⟩ := afterComplete cb d s hip hdone
      have hloop : List.foldl (mainIteration cb)
          (postResponseStep cb (sendDataPacket d s).snd)
          (ps.map (fun d =>
            { classCode := k_CC_FirmwareUpdate, op := ReqOp.dataOp d })) =
          postResponseStep cb (sendDataPacket d s).snd :=
        dataLoop_idle cb ps _ p4 p1
      rw [hloop]
      exact ⟨p3, p2, p1, p4⟩
    · rw [afterAdvance cb d s hip hex hdone]
      have hps : ps ≠ [] := by
        rintro rfl
        rw [hNoWrap] at hdone
        simp only [List.map_nil, List.sum_nil, Nat.add_zero] at hsum2
        omega
      have hrec := ih ({ s with
          mem := memcpyS s.mem s.ctxt.fwImagePtr d,
          ctxt := { s.ctxt with
                      bytesReceived := (s.ctxt.bytesReceived + d.length) % 2 ^ 32,
                      fwImagePtr := s.ctxt.fwImagePtr + d.length } })
        hip hex hlen (by rw [hNoWrap]; exact hsum2) hps
      exact hrec

/- ------------------------------------------------------------------ -/
/- Claim C4: complete transfer executes exactly once.                  -/
/- ------------------------------------------------------------------ -/

/-- The request trace of one transfer session: a start request followed
by its data packets, all of the firmware-update class. -/
def sessionTrace (cmd : String) (L : Nat) (pkts : List (List UInt8)) :
    List RequestFrame :=
  { classCode := k_CC_FirmwareUpdate, op := ReqOp.startOp cmd L } ::
    pkts.map (fun d => { classCode := k_CC_FirmwareUpdate, op := ReqOp.dataOp d })

/-- C4: running the dispatcher loop over `start(cmd, L)` followed by
packets whose sizes sum to exactly `L` (at least one packet, `L` a
`uint32_t` value, no execution already pending) completes the session
exactly once (`completeCount` — the completion branch that clears
`bUpdateInProgress` and raises `executeUpdate` — increments by one), runs
the executor exactly once and clears the flag (`execCount` increments by
one, `executeUpdate` ends false), leaves the session closed, and a
further data packet before a new start is rejected with
`e_EC_UPDATE_NOT_IN_PROGRESS`. -/
theorem session_completes_and_executes_once
    (cb : Collab) (cmd : String) (L : Nat) (pkts : List (List UInt8))
    (s0 : SysState) (probe : List UInt8)
    (hL : L < 2 ^ 32) (hsum : (pkts.map List.length).sum = L)
    (hne : pkts ≠ []) (hex : s0.executeUpdate = false) :
    (DoFirmwareUpdateLoop cb (sessionTrace cmd L pkts) s0).completeCount
      = s0.completeCount + 1 ∧
    (DoFirmwareUpdateLoop cb (sessionTrace cmd L pkts) s0).execCount
      = s0.execCount + 1 ∧
    (DoFirmwareUpdateLoop cb (sessionTrace cmd L pkts) s0).executeUpdate = false ∧
    (DoFirmwareUpdateLoop cb (sessionTrace cmd L pkts) s0).ctxt.bUpdateInProgress
      = false ∧
    (sendDataPacket probe (DoFirmwareUpdateLoop cb (sessionTrace cmd L pkts) s0)).fst
      = e_EC_UPDATE_NOT_IN_PROGRESS := by
  have hstart : mainIteration cb s0
      { classCode := k_CC_FirmwareUpdate, op := ReqOp.startOp cmd L } =
      (startFirmwareUpdate cmd L s0).snd := by
    rw [mainIteration_start]
    exact postResponseStep_idle cb _ hex
  have hfold : DoFirmwareUpdateLoop cb (sessionTrace cmd L pkts) s0 =
      DoFirmwareUpdateLoop cb (pkts.map (fun d =>
        { classCode := k_CC_FirmwareUpdate, op := ReqOp.dataOp d }))
        (startFirmwareUpdate cmd L s0).snd := by
    simp only [sessionTrace, DoFirmwareUpdateLoop, List.foldl_cons, hstart]
  obtain ⟨q1, q2, q3, q4⟩ := packets_phase cb pkts (startFirmwareUpdate cmd L s0).snd
    rfl hex hL (by simpa [startFirmwareUpdate] using hsum) hne
  rw [hfold]
  refine ⟨q1, q2, q3, q4, ?_⟩
  rw [sendDataPacket_idle probe _ q4]

/-- Witness for C4 at a concrete transfer: `start("run commit", 4)`
followed by one four-byte packet. -/
theorem session_completes_and_executes_once_witness :
    (DoFirmwareUpdateLoop cbTriv
        (sessionTrace "run commit" 4 [[0xDE, 0xAD, 0xBE, 0xEF]]) initState).execCount
      = initState.execCount + 1 :=
  (session_completes_and_executes_once cbTriv "run commit" 4
    [[0xDE, 0xAD, 0xBE, 0xEF]] initState [0x00]
    (by norm_num) (by decide) (by decide) rfl).2.1

/- ------------------------------------------------------------------ -/
/- Claim C3: boot-window processing vs one main-loop iteration.        -/
/- ------------------------------------------------------------------ -/

/-- A request of the `k_CC_AvbSystem` class, which the main loop routes
to the unmarshal collaborator but the boot window does not. -/
def avbSystemReq : RequestFrame :=
  { classCode := k_CC_AvbSystem, op := ReqOp.requestBootDelayOp }

/-- Counterexample to C3 as stated: for a `k_CC_AvbSystem`-class
request, the boot polling window answers with the invalid-service-code
response while one iteration of the main loop routes it to the unmarshal
collaborator, which answers `e_EC_SUCCESS` — the two produce different
response frames for the same request. -/
theorem bootWindow_routing_counterexample :
    (processRequestBoot cbTriv avbSystemReq initState).fst.statusCode
      = e_EC_INVALID_SERVICE_CODE ∧
    (processRequestMain cbTriv avbSystemReq initState).fst.statusCode
      = e_EC_SUCCESS ∧
    (processRequestBoot cbTriv avbSystemReq initState).fst ≠
      (processRequestMain cbTriv avbSystemReq initState).fst := by
  refine ⟨rfl, rfl, ?_⟩
  decide

/-- C3 (amended): for every request whose class code is not
`k_CC_AvbSystem`, the per-request processing of the boot polling window
(decode, route or answer invalid-service-code, produce the response
sized to the reported length) coincides with one iteration of steps 2–3
of the main dispatcher loop — same response frame and same state.  The
two differ exactly on the `k_CC_AvbSystem` class, which only the main
loop routes to the unmarshal collaborator. -/
theorem bootWindow_processing_matches_main
    (cb : Collab) (req : RequestFrame) (s : SysState)
    (h : req.classCode ≠ k_CC_AvbSystem) :
    processRequestBoot cb req s = processRequestMain cb req s := by
  unfold processRequestBoot processRequestMain
  by_cases h1 : req.classCode = k_CC_FirmwareUpdate
  · simp [h1]
  · simp [h1, h]

/-- Witness for C3 (amended) at a concrete firmware-update-class
request. -/
theorem bootWindow_processing_matches_main_witness :
    processRequestBoot cbTriv
        { classCode := k_CC_FirmwareUpdate, op := ReqOp.getNextQueuedEventOp }
        initState =
      processRequestMain cbTriv
        { classCode := k_CC_FirmwareUpdate, op := ReqOp.getNextQueuedEventOp }
        initState :=
  bootWindow_processing_matches_main cbTriv
    { classCode := k_CC_FirmwareUpdate, op := ReqOp.getNextQueuedEventOp }
    initState (by decide)

/- ------------------------------------------------------------------ -/
/- Claim C8: the enable flag only gates the latch and the signal.      -/
/- ------------------------------------------------------------------ -/

/-- C8: when a transfer has just completed (`executeUpdate` raised), the
dispatcher's step 4 with the event queue disabled produces exactly the
state it produces with the queue enabled, except that the latch is not
armed and the asynchronous notification is not raised (and the
`queueEnabled` flag itself differs by construction); the executor still
runs once and the pending flag is cleared in both cases. -/
theorem queue_disabled_only_skips_latch_and_signal
    (cb : Collab) (s : SysState) (h : s.executeUpdate = true) :
    postResponseStep cb { s with queueEnabled := false } =
      { postResponseStep cb { s with queueEnabled := true } with
          queueEnabled := false,
          eventValid := s.eventValid,
          asyncSignals := s.asyncSignals } ∧
    (postResponseStep cb { s with queueEnabled := false }).executeUpdate = false ∧
    (postResponseStep cb { s with queueEnabled := false }).execCount
      = s.execCount + 1 ∧
    (postResponseStep cb { s with queueEnabled := false }).eventValid
      = s.eventValid ∧
    (postResponseStep cb { s with queueEnabled := false }).asyncSignals
      = s.asyncSignals ∧
    (postResponseStep cb { s with queueEnabled := true }).executeUpdate = false ∧
    (postResponseStep cb { s with queueEnabled := true }).execCount
      = s.execCount + 1 ∧
    (postResponseStep cb { s with queueEnabled := true }).eventValid = true ∧
    (postResponseStep cb { s with queueEnabled := true }).asyncSignals
      = s.asyncSignals + 1 := by
  obtain ⟨f1, f2, f3, f4, f5, f6, f7, f8, f9, f10⟩ := executeFirmwareUpdate_frame cb s
  have hd : postResponseStep cb { s with queueEnabled := false } =
      { (executeFirmwareUpdate cb s).snd with
          queueEnabled := false, executeUpdate := false,
          execCount := (executeFirmwareUpdate cb s).snd.execCount + 1 } := by
    unfold postResponseStep
    rw [executeFirmwareUpdate_queueEnabled cb s false]
    simp [h]
  have he : postResponseStep cb { s with queueEnabled := true } =
      { (executeFirmwareUpdate cb s).snd with
          queueEnabled := true, executeUpdate := false,
          execCount := (executeFirmwareUpdate cb s).snd.execCount + 1,
          eventValid := true,
          asyncSignals := (executeFirmwareUpdate cb s).snd.asyncSignals + 1 } := by
    unfold postResponseStep
    rw [executeFirmwareUpdate_queueEnabled cb s true]
    simp [h]
  rw [hd, he]
  refine ⟨?_, rfl, ?_, ?_, ?_, rfl, ?_, rfl, ?_⟩
  · simp [f4, f10]
  · rw [f8]
  · exact f4
  · exact f10
  · rw [f8]
  · rw [f10]

/-- Witness for C8 at a concrete completed-transfer state. -/
theorem queue_disabled_only_skips_latch_and_signal_witness :
    (postResponseStep cbTriv
        { { initState with executeUpdate := true } with queueEnabled := false }).execCount
      = { initState with executeUpdate := true }.execCount + 1 :=
  (queue_disabled_only_skips_latch_and_signal cbTriv
    { initState with executeUpdate := true } rfl).2.2.1

/- ------------------------------------------------------------------ -/
/- Claim C7: the boot decision.                                        -/
/- ------------------------------------------------------------------ -/

/-- C7: starting from the boot state of the flags (both request flags
clear, as at entry to `CheckFirmwareUpdate`), the sequencer enters
update mode — the branch that runs the unbounded dispatcher loop and
never returns — if and only if the probed status word equals the
fallback magic or a remain-in-bootloader request was observed during the
polling window (which is what raises `firmwareUpdate`); otherwise it
returns 1 exactly when a boot-delay request was observed, and returns 0
exactly when none of these held. -/
theorem boot_decision (cb : Collab) (readValue : Nat)
    (polls : List (Option RequestFrame)) (s0 : SysState)
    (hfw : s0.firmwareUpdate = false) (hbd : s0.bootDelay = false) :
    ((CheckFirmwareUpdate cb readValue polls s0).fst = BootOutcome.updateMode ↔
      (readValue = GENERAL5_MAGIC ∨
        (pollWindow cb 4 polls s0).firmwareUpdate = true)) ∧
    ((CheckFirmwareUpdate cb readValue polls s0).fst = BootOutcome.ret 1 ↔
      (readValue ≠ GENERAL5_MAGIC ∧
        (pollWindow cb 4 polls s0).firmwareUpdate = false ∧
        (pollWindow cb 4 polls s0).bootDelay = true)) ∧
    ((CheckFirmwareUpdate cb readValue polls s0).fst = BootOutcome.ret 0 ↔
      (readValue ≠ GENERAL5_MAGIC ∧
        (pollWindow cb 4 polls s0).firmwareUpdate = false ∧
        (pollWindow cb 4 polls s0).bootDelay = false)) := by
  unfold CheckFirmwareUpdate
  by_cases h1 : readValue = GENERAL5_MAGIC <;>
    cases h2 : (pollWindow cb 4 polls s0).firmwareUpdate <;>
      cases h3 : (pollWindow cb 4 polls s0).bootDelay <;>
        simp [h1, h2, h3]

/-- Witness for C7: with a non-magic probe word and a first poll
delivering a remain-in-bootloader request, the sequencer enters update
mode. -/
theorem boot_decision_witness :
    (CheckFirmwareUpdate cbTriv 0
        [some { classCode := k_CC_FirmwareUpdate, op := ReqOp.remainInBootloaderOp }]
        initState).fst = BootOutcome.updateMode :=
  (boot_decision cbTriv 0
    [some { classCode := k_CC_FirmwareUpdate, op := ReqOp.remainInBootloaderOp }]
    initState rfl rfl).1.mpr (Or.inr (by decide))

/-- Counterexample to C4 as stated: the degenerate instance
`start(_, 0)` followed by *zero* packets (whose sizes sum to exactly
`L = 0`) never completes — completion only happens inside a
`sendDataPacket` call — so the session stays in progress, the
execute-pending flag is never raised and the executor never runs. -/
theorem session_empty_trace_counterexample :
    (DoFirmwareUpdateLoop cbTriv (sessionTrace "c" 0 []) initState).completeCount
      = 0 ∧
    (DoFirmwareUpdateLoop cbTriv (sessionTrace "c" 0 []) initState).execCount = 0 ∧
    (DoFirmwareUpdateLoop cbTriv
        (sessionTrace "c" 0 []) initState).ctxt.bUpdateInProgress = true :=
  ⟨rfl, rfl, rfl⟩
